import Mathlib

/-!
# Verification of the ONU monitoring core against its specification

Shallow embedding of the rate limiter (`src/utils/rateLimiter.js`), the
cache service wrapper (`src/services/cacheService.js`), the API request
path (`src/services/apiService.js`) and the aggregation service
(`src/services/onuService.js`, in its two variants present in the
repository). Machine time (`Date.now()`) is modelled as `Int`
milliseconds passed explicitly; JavaScript truthiness is modelled on an
explicit value type.
-/

/-! ## JavaScript value primitives -/

/-- A JavaScript value as far as truthiness and cache payloads are
concerned.  `null` also stands for `undefined`; `obj` is an opaque
non-primitive payload (always truthy). -/
inductive JsVal where
  | null : JsVal
  | bool : Bool → JsVal
  | num : ℚ → JsVal
  | str : String → JsVal
  | obj : Nat → JsVal
deriving DecidableEq, Repr

/-- JavaScript truthiness: `null`/`undefined`, `false`, `0`, `""` are falsy. -/
def JsVal.truthy : JsVal → Bool
  | .null => false
  | .bool b => b
  | .num q => decide (q ≠ 0)
  | .str s => decide (s ≠ "")
  | .obj _ => true

/-- A JavaScript number: a rational, or `NaN` (the result of parsing a
non-numeric string with `parseFloat`). -/
inductive JsNum where
  | num : ℚ → JsNum
  | nan : JsNum
deriving DecidableEq, Repr

/-- Truthiness of a JS number: `0` and `NaN` are falsy. -/
def JsNum.truthy : JsNum → Bool
  | .num q => decide (q ≠ 0)
  | .nan => false

/-- `isNaN(x)` for a JS number. -/
def JsNum.isNaNum : JsNum → Bool
  | .num _ => false
  | .nan => true

/-- Truthiness of a possibly absent numeric field (`undefined` is falsy). -/
def coordTruthy : Option JsNum → Bool
  | none => false
  | some n => n.truthy

/-- `parseFloat` applied to a possibly absent numeric field: on a number it
is the identity, on `undefined` it yields `NaN`.  (Raw fields that are
non-numeric strings are modelled as already-parsed `JsNum.nan`.) -/
def jsParseFloat : Option JsNum → JsNum
  | some n => n
  | none => .nan

/-- `s.includes(pat)`: `pat` occurs as a contiguous substring of `s`. -/
def strIncludes (s pat : String) : Bool :=
  s.data.tails.any (fun t => pat.data.isPrefixOf t)

/-- ASCII lower-casing of one character (the only case relevant to the
status strings handled by this system). -/
def charToLower (c : Char) : Char :=
  if 65 ≤ c.toNat ∧ c.toNat ≤ 90 then Char.ofNat (c.toNat + 32) else c

/-- `s.toLowerCase()` (ASCII). -/
def jsToLower (s : String) : String :=
  String.mk (s.data.map charToLower)

/-- ASCII whitespace test for `trim`. -/
def charIsWs (c : Char) : Bool :=
  c = ' ' || c = '\t' || c = '\n' || c = '\r'

/-- `s.trim()`: strip leading and trailing whitespace. -/
def jsTrim (s : String) : String :=
  String.mk (((s.data.dropWhile charIsWs).reverse.dropWhile charIsWs).reverse)

/-- `s || "Unknown"` for a possibly absent string field. -/
def orUnknown (s : Option String) : String :=
  match s with
  | some v => if v = "" then "Unknown" else v
  | none => "Unknown"

/-! ## Status classification (`onuService.js`, `determineOnuStatus`)

The repository carries two variants of the classifier: the
`src/services/onuService.js` one, which consults a secondary
`lastDownCause` fallback, and the variant in the second service file,
which trims the input and has no fallback.  `none` models a `null` or
absent raw status; the JavaScript guard `if (!statusString)` is also
taken by the empty string. -/

/-- `determineOnuStatus(statusString, lastDownCause)` from
`src/services/onuService.js:17-43`. -/
def determineOnuStatus (statusString : Option String) (lastDownCause : Option String) : String :=
  match statusString with
  | none => "Offline"
  | some raw =>
    if raw = "" then "Offline"
    else
      let status := jsToLower raw
      if status = "online" then "Online"
      else if status = "los" || strIncludes status "los" then "LOS"
      else if status = "power fail" || strIncludes status "power" then "Power Fail"
      else if status = "offline" then "Offline"
      else
        match lastDownCause with
        | some c0 =>
          if c0 = "" then "Offline"
          else
            let cause := jsToLower c0
            if strIncludes cause "los" || strIncludes cause "signal" then "LOS"
            else if strIncludes cause "power" || strIncludes cause "dying-gasp" then "Power Fail"
            else "Offline"
        | none => "Offline"

/-- `determineOnuStatus(statusString)` from the second `OnuService`
variant (`unnamed/part_003:18-35`): trims the lowered input, no
`lastDownCause` fallback. -/
def determineOnuStatusV2 (statusString : Option String) : String :=
  match statusString with
  | none => "Offline"
  | some raw =>
    if raw = "" then "Offline"
    else
      let status := jsTrim (jsToLower raw)
      if status = "online" then "Online"
      else if status = "los" || strIncludes status "los" then "LOS"
      else if status = "power fail" || strIncludes status "power" then "Power Fail"
      else if status = "offline" then "Offline"
      else "Offline"

/-- `getStatusColor(status)` from `onuService.js:48-56`. -/
def getStatusColor (status : String) : String :=
  if status = "Online" then "#28a745"
  else if status = "LOS" then "#dc3545"
  else if status = "Power Fail" then "#ffc107"
  else if status = "Offline" then "#6c757d"
  else "#6c757d"

/-! ## Call gate (`src/utils/rateLimiter.js`)

Timestamps are `Date.now()` values in milliseconds, modelled as `Int`
and passed explicitly.  The JavaScript methods mutate the instance;
here they return the new state. -/

/-- The mutable state of a `RateLimiter` instance
(`rateLimiter.js:3-13`): configuration plus the global last-call clock
and the per-restricted-class timestamp lists. -/
structure RateLimiterState where
  apiDelay : Int
  gpsLimit : Int
  detailsLimit : Int
  lastCallTime : Int
  gpsCalls : List Int
  detailsCalls : List Int
deriving DecidableEq, Repr

/-- `['gps', 'details'].includes(endpointType)`. -/
def isLimitedEndpoint (t : String) : Bool :=
  t = "gps" || t = "details"

/-- `this.callCounts[endpointType]` for a restricted endpoint type. -/
def getCallList (rl : RateLimiterState) (t : String) : List Int :=
  if t = "gps" then rl.gpsCalls else rl.detailsCalls

/-- Assignment to `this.callCounts[endpointType]`. -/
def setCallList (rl : RateLimiterState) (t : String) (l : List Int) : RateLimiterState :=
  if t = "gps" then { rl with gpsCalls := l } else { rl with detailsCalls := l }

/-- `endpointType === 'gps' ? this.gpsLimit : this.detailsLimit`. -/
def endpointLimit (rl : RateLimiterState) (t : String) : Int :=
  if t = "gps" then rl.gpsLimit else rl.detailsLimit

/-- The structured result of `canCallEndpoint`.  `waitMinutes` and
`resetTime` are absent on the allowed path. -/
structure QuotaCheck where
  allowed : Bool
  waitMinutes : Option Int
  resetTime : Option Int
deriving DecidableEq, Repr

/-- `Math.ceil(a / b)` for integer inputs with `b > 0`. -/
def mathCeilDiv (a b : Int) : Int :=
  -((-a).fdiv b)

/-- `canCallEndpoint(endpointType)` (`rateLimiter.js:28-58`) at machine
time `now`: unrestricted types are always allowed; for `gps`/`details`
the timestamp list is pruned to the trailing 60-minute window (and the
pruned list is written back), then the in-window count is compared with
the configured limit; at or above the limit the call is rejected with
the whole-minute wait until the oldest in-window timestamp ages out.
(When the limit is ≤ 0 and the window is empty, `callCounts[type][0]`
is `undefined` in JavaScript and the wait arithmetic yields `NaN`;
modelled as absent fields.) -/
def canCallEndpoint (rl : RateLimiterState) (t : String) (now : Int) :
    QuotaCheck × RateLimiterState :=
  if !isLimitedEndpoint t then
    ({ allowed := true, waitMinutes := none, resetTime := none }, rl)
  else
    let oneHourAgo := now - 60 * 60 * 1000
    let pruned := (getCallList rl t).filter (fun ts => decide (ts > oneHourAgo))
    let rl' := setCallList rl t pruned
    let limit := endpointLimit rl t
    if (pruned.length : Int) ≥ limit then
      match pruned.head? with
      | some oldestCall =>
        let resetTime := oldestCall + 60 * 60 * 1000
        let waitMinutes := mathCeilDiv (resetTime - now) (60 * 1000)
        ({ allowed := false, waitMinutes := some waitMinutes, resetTime := some resetTime }, rl')
      | none =>
        ({ allowed := false, waitMinutes := none, resetTime := none }, rl')
    else
      ({ allowed := true, waitMinutes := none, resetTime := none }, rl')

/-- `recordCall(endpointType)` (`rateLimiter.js:60-65`) at machine time
`now`: appends `now` to the class's list; no-op for unrestricted types. -/
def recordCall (rl : RateLimiterState) (t : String) (now : Int) : RateLimiterState :=
  if isLimitedEndpoint t then setCallList rl t (getCallList rl t ++ [now]) else rl

/-- A sequence of `recordCall` invocations at the given machine times. -/
def recordCalls (rl : RateLimiterState) (t : String) (times : List Int) : RateLimiterState :=
  times.foldl (fun s n => recordCall s t n) rl

/-- `getRemainingCalls(endpointType)` (`rateLimiter.js:71-85`):
configured limit minus in-window count, `null` for unrestricted types. -/
def getRemainingCalls (rl : RateLimiterState) (t : String) (now : Int) :
    Option Int × RateLimiterState :=
  if !isLimitedEndpoint t then (none, rl)
  else
    let oneHourAgo := now - 60 * 60 * 1000
    let pruned := (getCallList rl t).filter (fun ts => decide (ts > oneHourAgo))
    (some (endpointLimit rl t - pruned.length), setCallList rl t pruned)

/-- `waitForNextCall()` (`rateLimiter.js:15-26`) as a timing function:
invoked at machine time `now` with last-call clock `lastCallTime`, it
returns the instant at which the caller resumes, which is also the new
value of the last-call clock (`Date.now()` taken after the sleep,
modelled as the earliest possible wake-up instant `now + waitTime`). -/
def waitForNextCall (apiDelay lastCallTime now : Int) : Int :=
  if now - lastCallTime < apiDelay then now + (apiDelay - (now - lastCallTime)) else now

/-! ## Result cache (`src/services/cacheService.js`)

The wrapper class is repository code; the underlying `node-cache`
dependency is external. -/

/-- One stored cache entry: value plus absolute expiry instant. -/
structure CacheEntry where
  value : JsVal
  expiry : Int
deriving DecidableEq, Repr

/-- The underlying keyed store, newest entry first. -/
abbrev CacheStore := List (String × CacheEntry)

/-- Modelled from the spec: the underlying TTL store is the external
`node-cache` dependency, absent from this repository.  Spec §3 "Cache
Entry" / §4.2: `set(key, value, ttl)` stores the value with expiry
`now + ttl`, overwriting any prior entry for the same key. -/
def storeSet (st : CacheStore) (k : String) (v : JsVal) (ttl now : Int) : CacheStore :=
  (k, { value := v, expiry := now + ttl }) :: st.filter (fun p => p.1 != k)

/-- Modelled from the spec: `get(key)` on the underlying store returns
the stored value if present and unexpired; a read at or after the
expiry instant behaves identically to a key that was never set. -/
def storeGet (st : CacheStore) (k : String) (now : Int) : Option JsVal :=
  match st.find? (fun p => p.1 == k) with
  | some p => if now < p.2.expiry then some p.2.value else none
  | none => none

/-- The per-data-class TTL configuration (`config.cache.ttl`). -/
structure CacheConfig where
  ttlOnuStatus : Int
  ttlOnuDetails : Int
  ttlGps : Int
deriving DecidableEq, Repr

/-- `CacheService.get(key)` (`cacheService.js:13-26`): returns the
stored value if it is truthy, else `null` (the absence signal); a miss
also returns `null`.  Internal storage faults return `null` as well
(not modelled: the pure store cannot fault). -/
def cacheServiceGet (st : CacheStore) (k : String) (now : Int) : JsVal :=
  match storeGet st k now with
  | some value => if value.truthy then value else JsVal.null
  | none => JsVal.null

/-- `CacheService.set(key, value, ttl)` (`cacheService.js:28-38`):
`const actualTtl = ttl || this.config.ttl.onuStatus` (so a `null` — or
zero — ttl argument falls back to the configured default), then store
with expiry `now + actualTtl`. -/
def cacheServiceSet (cfg : CacheConfig) (st : CacheStore) (k : String) (v : JsVal)
    (ttl : Option Int) (now : Int) : CacheStore :=
  let actualTtl :=
    match ttl with
    | some t => if t ≠ 0 then t else cfg.ttlOnuStatus
    | none => cfg.ttlOnuStatus
  storeSet st k v actualTtl now

/-- A batch of `CacheService.set` operations
(key, value, ttl argument, machine time), applied in order. -/
def applyCacheSets (cfg : CacheConfig) (st : CacheStore)
    (ops : List (String × JsVal × Option Int × Int)) : CacheStore :=
  ops.foldl (fun s op => cacheServiceSet cfg s op.1 op.2.1 op.2.2.1 op.2.2.2) st

/-! ## Upstream request path (`src/services/apiService.js`, `makeRequest`) -/

/-- The error taxonomy of `makeRequest` (`apiService.js:78-146`); each
constructor stands for one `throw` site (only the message text is
abstracted; the 401/403 re-wrapping in the catch block changes only the
message of an HTTP failure). -/
inductive ReqError where
  | invalidApiKey : ReqError
  | rateLimited (waitMinutes : Option Int) : ReqError
  | httpFailure : ReqError
  | emptyResponse : ReqError
  | apiErrorStatus (msg : String) : ReqError
deriving DecidableEq, Repr

/-- The success/failure envelope of the upstream API
(`response.data`): `statusFalse` is `response.data.status === false`,
`error` the optional error text.  The payload itself is irrelevant to
the request path and omitted. -/
structure ApiEnvelope where
  statusFalse : Bool
  error : Option String
deriving DecidableEq, Repr

/-- The outcome of the axios `GET`: the promise rejects (timeout,
connection failure, non-2xx), or resolves with a possibly absent
body. -/
inductive HttpOutcome where
  | reject : HttpOutcome
  | resolve (data : Option ApiEnvelope) : HttpOutcome
deriving DecidableEq, Repr

/-- `makeRequest(endpoint, params, endpointType)`
(`apiService.js:78-146`, same control flow in `unnamed/part_004:52-89`):
validate the API key, check the quota for restricted endpoint types,
wait on the global spacing clock, issue the HTTP call, record the call
for restricted types, then validate the response envelope.  `nowCheck`,
`nowWait` and `nowRecord` are the machine times at the quota check, the
spacing wait and the record step. -/
def makeRequest (apiKey : String) (rl : RateLimiterState) (endpointType : String)
    (http : HttpOutcome) (nowCheck nowWait nowRecord : Int) :
    Except ReqError ApiEnvelope × RateLimiterState :=
  if apiKey = "" || apiKey = "your_api_key_here" then
    (Except.error ReqError.invalidApiKey, rl)
  else
    let quota :=
      if endpointType ≠ "normal" then canCallEndpoint rl endpointType nowCheck
      else ({ allowed := true, waitMinutes := none, resetTime := none }, rl)
    let rl1 := quota.2
    if quota.1.allowed = false then
      (Except.error (ReqError.rateLimited quota.1.waitMinutes), rl1)
    else
      let rl2 := { rl1 with lastCallTime := waitForNextCall rl1.apiDelay rl1.lastCallTime nowWait }
      match http with
      | HttpOutcome.reject => (Except.error ReqError.httpFailure, rl2)
      | HttpOutcome.resolve data =>
        let rl3 := if endpointType ≠ "normal" then recordCall rl2 endpointType nowRecord else rl2
        match data with
        | none => (Except.error ReqError.emptyResponse, rl3)
        | some env =>
          if env.statusFalse then
            let errorMsg :=
              match env.error with
              | some e => if e = "" then "API returned error status" else e
              | none => "API returned error status"
            if strIncludes (jsToLower errorMsg) "invalid api key" then
              (Except.error ReqError.invalidApiKey, rl3)
            else
              (Except.error (ReqError.apiErrorStatus errorMsg), rl3)
          else
            (Except.ok env, rl3)

/-! ## Aggregation service (`src/services/onuService.js` and the second
variant `unnamed/part_003`) -/

/-- One upstream device record, with the fields the service reads.
Optional string fields model absent/`null` upstream values; coordinate
fields are possibly absent numbers (a raw string coordinate is modelled
by its parsed value, `nan` when non-numeric). -/
structure OnuRec where
  unique_external_id : String
  name : Option String
  odb_name : Option String
  board : Int
  port : Int
  onu : Int
  olt_name : Option String
  zone_name : Option String
  status : Option String
  latitude : Option JsNum
  longitude : Option JsNum
deriving DecidableEq, Repr

/-- One status-transition event (`trackStatusChange`,
`onuService.js:61-94`). -/
structure StatusEvent where
  unique_external_id : String
  name : String
  odb_name : String
  board : Int
  port : Int
  onu : Int
  old_status : String
  new_status : String
  timestamp : String
deriving DecidableEq, Repr

/-- The two bounded transition logs (`this.statusHistory`). -/
structure StatusHistory where
  recentLos : List StatusEvent
  recentPowerFail : List StatusEvent
deriving DecidableEq, Repr

/-- The event object built by `trackStatusChange` (`onuService.js:64-75`). -/
def mkStatusEvent (o : OnuRec) (newStatus oldStatus : String) (timestamp : String) :
    StatusEvent :=
  { unique_external_id := o.unique_external_id
    name := orUnknown o.name
    odb_name := orUnknown o.odb_name
    board := o.board
    port := o.port
    onu := o.onu
    old_status := oldStatus
    new_status := newStatus
    timestamp := timestamp }

/-- `trackStatusChange(onu, newStatus, oldStatus)`
(`onuService.js:61-94`, identical in `unnamed/part_003:53-86`) at
observation timestamp `ts`: no-op when the status did not change;
otherwise unshift the event onto the log selected by the new status and
pop the oldest entry when the length exceeds 50. -/
def trackStatusChange (hist : StatusHistory) (o : OnuRec) (newStatus oldStatus : String)
    (ts : String) : StatusHistory :=
  if newStatus = oldStatus then hist
  else
    let event := mkStatusEvent o newStatus oldStatus ts
    let hist1 :=
      if newStatus = "LOS" then
        let l := event :: hist.recentLos
        { hist with recentLos := if l.length > 50 then l.dropLast else l }
      else hist
    if newStatus = "Power Fail" then
      let l := event :: hist1.recentPowerFail
      { hist1 with recentPowerFail := if l.length > 50 then l.dropLast else l }
    else hist1

/-- `getStatusHistory()` (`onuService.js:285-290`): the first 20 entries
of each log, most recent first. -/
def getStatusHistory (hist : StatusHistory) : List StatusEvent × List StatusEvent :=
  (hist.recentLos.take 20, hist.recentPowerFail.take 20)

/-- The coordinate-validity filter of `getOnusWithGps`
(`unnamed/part_003:180-184`):
`const lat = onu.latitude ? parseFloat(onu.latitude) : null` (likewise
`lng`), then
`lat && lng && !isNaN(lat) && !isNaN(lng) && lat !== 0 && lng !== 0`. -/
def validCoordPair (rawLat rawLng : Option JsNum) : Bool :=
  let lat : Option JsNum := if coordTruthy rawLat then some (jsParseFloat rawLat) else none
  let lng : Option JsNum := if coordTruthy rawLng then some (jsParseFloat rawLng) else none
  match lat, lng with
  | some l, some g =>
    l.truthy && g.truthy && !l.isNaNum && !g.isNaNum &&
      decide (l ≠ JsNum.num 0) && decide (g ≠ JsNum.num 0)
  | _, _ => false

/-- One output record of `getOnusWithGps` (`unnamed/part_003:200-207`):
the device record spread together with the classified status, its
display color, the raw status, and the parsed coordinates. -/
structure GpsOnuOut where
  base : OnuRec
  status : String
  status_color : String
  raw_status : Option String
  latitude : JsNum
  longitude : JsNum
deriving DecidableEq, Repr

/-- The per-device mapping step of `getOnusWithGps`
(`unnamed/part_003:185-208`).  The status-change side effects inside the
same loop body (per-device status cache read/write and
`trackStatusChange`) touch only the cache and history state, never the
returned record; they are modelled by `trackStatusChange` above. -/
def gpsProcessOne (o : OnuRec) : GpsOnuOut :=
  let rawStatus := o.status
  let status := determineOnuStatusV2 rawStatus
  { base := o
    status := status
    status_color := getStatusColor status
    raw_status := rawStatus
    latitude := jsParseFloat o.latitude
    longitude := jsParseFloat o.longitude }

/-- The returned list of `getOnusWithGps` (`unnamed/part_003:179-208`)
on a cache miss, as a function of the upstream device list: keep only
devices with a valid coordinate pair, then build the output records. -/
def getOnusWithGpsList (onus : List OnuRec) : List GpsOnuOut :=
  (onus.filter (fun o => validCoordPair o.latitude o.longitude)).map gpsProcessOne

/-- The signal-quality sub-response of `getOnuById`; the payload fields
are irrelevant to the control flow and abstracted. -/
structure SignalResponse where
  status : Bool
  payload : Nat
deriving DecidableEq, Repr

/-- The `get_onu_details` response envelope used by `getOnuById`. -/
structure DetailsResponse where
  status : Bool
  onu_details : OnuRec
deriving DecidableEq, Repr

/-- The merged record returned by `getOnuById`. -/
structure OnuByIdResult where
  base : OnuRec
  status : String
  status_color : String
  raw_status : Option String
  signal : Option SignalResponse
deriving DecidableEq, Repr

/-- `getOnuById(externalId)` (`unnamed/part_003:225-263`) as a function
of the cache lookup result and the two sub-fetch outcomes.  The signal
fetch carries `.catch(() => ({ status: false }))`, so a rejected signal
promise (`none`) becomes a `status: false` envelope; the lookup fails
only when the detail fetch reports failure.  The final write of the
result back to the cache only stores the returned record and is not
part of the returned value. -/
def getOnuById (cached : Option OnuByIdResult) (details : DetailsResponse)
    (signalOutcome : Option SignalResponse) : Except String OnuByIdResult :=
  match cached with
  | some r => Except.ok r
  | none =>
    let signalResponse := signalOutcome.getD { status := false, payload := 0 }
    if !details.status then Except.error "Failed to get ONU details"
    else
      let onu := details.onu_details
      let rawStatus := onu.status
      let status := determineOnuStatusV2 rawStatus
      Except.ok
        { base := onu
          status := status
          status_color := getStatusColor status
          raw_status := rawStatus
          signal := if signalResponse.status then some signalResponse else none }

/-! ## Cache fingerprint of `getAllOnusWithDetails`
(`onuService.js:101`, `unnamed/part_003:93`):
`const cacheKey = ` `all_onus_${JSON.stringify(filters)}`.
A JavaScript filters object is an insertion-ordered map, modelled as an
association list of string keys and string values (HTTP query
parameters). -/

/-- Modelled from the spec of the JavaScript builtin `JSON.stringify`:
escaping of one string character (backslash and quote; other escapes do
not occur in filter values). -/
def jsonEscapeChar (c : Char) : List Char :=
  if c = '\\' then ['\\', '\\']
  else if c = '"' then ['\\', '"']
  else [c]

/-- A JSON string literal. -/
def jsonQuote (s : String) : String :=
  "\"" ++ String.mk (s.data.map jsonEscapeChar).flatten ++ "\""

/-- Comma-join of the serialized members. -/
def joinComma : List String → String
  | [] => ""
  | [s] => s
  | s :: rest => s ++ "," ++ joinComma rest

/-- `JSON.stringify` of a flat string-valued object, keys in insertion
order. -/
def jsonStringifyPairs (pairs : List (String × String)) : String :=
  "\x7b" ++ joinComma (pairs.map (fun p => jsonQuote p.1 ++ ":" ++ jsonQuote p.2)) ++ "\x7d"

/-- The cache fingerprint of `getAllOnusWithDetails`. -/
def allOnusCacheKey (filters : List (String × String)) : String :=
  "all_onus_" ++ jsonStringifyPairs filters

/-- A string free of quote and backslash characters (JSON escaping is
the identity on it). -/
def plainStr (s : String) : Bool :=
  s.data.all (fun c => c ≠ '"' && c ≠ '\\')

/-! ## Theorems -/

/-- **C4.** Status classification is a total deterministic function from raw
status strings (including null/absent) to the four-value enumeration;
`classify("Online") = Online`, `classify("los-detected") = LOS`,
`classify("power fail") = PowerFail`, `classify(null) = Offline`,
`classify("garbage") = Offline`.  Both classifier variants present in the
repository satisfy this. -/
theorem determineOnuStatus_total_and_examples :
    determineOnuStatus (some "Online") none = "Online" ∧
    determineOnuStatus (some "los-detected") none = "LOS" ∧
    determineOnuStatus (some "power fail") none = "Power Fail" ∧
    determineOnuStatus none none = "Offline" ∧
    determineOnuStatus (some "garbage") none = "Offline" ∧
    (∀ s c, determineOnuStatus s c ∈ ["Online", "LOS", "Power Fail", "Offline"]) ∧
    determineOnuStatusV2 (some "Online") = "Online" ∧
    determineOnuStatusV2 (some "los-detected") = "LOS" ∧
    determineOnuStatusV2 (some "power fail") = "Power Fail" ∧
    determineOnuStatusV2 none = "Offline" ∧
    determineOnuStatusV2 (some "garbage") = "Offline" ∧
    (∀ s, determineOnuStatusV2 s ∈ ["Online", "LOS", "Power Fail", "Offline"]) := by
  refine ⟨by decide, by decide, by decide, by decide, by decide, ?_,
          by decide, by decide, by decide, by decide, by decide, ?_⟩
  · intro s c
    rcases s with _ | raw
    · simp [determineOnuStatus]
    · rcases c with _ | c0 <;>
        simp only [determineOnuStatus] <;> split_ifs <;> simp
  · intro s
    rcases s with _ | raw
    · simp [determineOnuStatusV2]
    · simp only [determineOnuStatusV2]; split_ifs <;> simp

/-- **C3.** Two consecutive completed `waitForNextCall` invocations
(the second reads the last-call clock written by the first) resume at
instants separated by at least the configured minimum spacing
`apiDelay`; the wait is a total suspension, never a failure. -/
theorem waitForNextCall_spacing (apiDelay lastCallTime n1 n2 : Int) :
    waitForNextCall apiDelay (waitForNextCall apiDelay lastCallTime n1) n2 ≥
      waitForNextCall apiDelay lastCallTime n1 + apiDelay := by
  unfold waitForNextCall
  split_ifs <;> omega

lemma getCallList_setCallList (rl : RateLimiterState) (t : String) (l : List Int) :
    getCallList (setCallList rl t l) t = l := by
  by_cases h : t = "gps" <;> simp [getCallList, setCallList, h]

lemma endpointLimit_setCallList (rl : RateLimiterState) (t : String) (l : List Int)
    (t' : String) : endpointLimit (setCallList rl t l) t' = endpointLimit rl t' := by
  by_cases h : t = "gps" <;> by_cases h' : t' = "gps" <;>
    simp [endpointLimit, setCallList, h, h']

lemma getCallList_recordCall (rl : RateLimiterState) (t : String) (now : Int)
    (hT : isLimitedEndpoint t = true) :
    getCallList (recordCall rl t now) t = getCallList rl t ++ [now] := by
  simp [recordCall, hT, getCallList_setCallList]

lemma endpointLimit_recordCall (rl : RateLimiterState) (t : String) (now : Int)
    (t' : String) : endpointLimit (recordCall rl t now) t' = endpointLimit rl t' := by
  unfold recordCall
  split_ifs
  · exact endpointLimit_setCallList ..
  · rfl

lemma getCallList_recordCalls (rl : RateLimiterState) (t : String) (times : List Int)
    (hT : isLimitedEndpoint t = true) :
    getCallList (recordCalls rl t times) t = getCallList rl t ++ times := by
  induction times generalizing rl with
  | nil => simp [recordCalls]
  | cons a l ih =>
    have h1 : recordCalls rl t (a :: l) = recordCalls (recordCall rl t a) t l := rfl
    rw [h1, ih, getCallList_recordCall rl t a hT, List.append_assoc, List.singleton_append]

lemma endpointLimit_recordCalls (rl : RateLimiterState) (t : String) (times : List Int)
    (t' : String) : endpointLimit (recordCalls rl t times) t' = endpointLimit rl t' := by
  induction times generalizing rl with
  | nil => rfl
  | cons a l ih =>
    have h1 : recordCalls rl t (a :: l) = recordCalls (recordCall rl t a) t l := rfl
    rw [h1, ih, endpointLimit_recordCall]

/-- **C1.** For a restricted endpoint class whose configured limit equals
`N`, after `N` `recordCall` invocations whose timestamps all lie in the
trailing 60-minute window, `canCallEndpoint` rejects and reports the
whole minutes until the oldest in-window timestamp ages out; once the
oldest timestamp is older than 60 minutes (and only it has aged out),
`canCallEndpoint` allows again. -/
theorem canCallEndpoint_quota_window
    (rl : RateLimiterState) (t : String) (t0 : Int) (rest : List Int) (now1 now2 : Int)
    (hT : isLimitedEndpoint t = true)
    (hEmpty : getCallList rl t = [])
    (hLim : endpointLimit rl t = ((t0 :: rest).length : Int))
    (hWin1 : ∀ x ∈ t0 :: rest, x > now1 - 60 * 60 * 1000)
    (hOld : t0 ≤ now2 - 60 * 60 * 1000)
    (hWin2 : ∀ x ∈ rest, x > now2 - 60 * 60 * 1000) :
    ((canCallEndpoint (recordCalls rl t (t0 :: rest)) t now1).1.allowed = false ∧
     (canCallEndpoint (recordCalls rl t (t0 :: rest)) t now1).1.waitMinutes =
       some (mathCeilDiv (t0 + 60 * 60 * 1000 - now1) (60 * 1000))) ∧
    (canCallEndpoint (recordCalls rl t (t0 :: rest)) t now2).1.allowed = true := by
  have hcalls : getCallList (recordCalls rl t (t0 :: rest)) t = t0 :: rest := by
    rw [getCallList_recordCalls rl t _ hT, hEmpty, List.nil_append]
  have hlimN : endpointLimit (recordCalls rl t (t0 :: rest)) t = ((t0 :: rest).length : Int) := by
    rw [endpointLimit_recordCalls, hLim]
  refine ⟨?_, ?_⟩
  · have hfilter : (t0 :: rest).filter (fun ts => decide (ts > now1 - 60 * 60 * 1000)) =
        t0 :: rest :=
      List.filter_eq_self.mpr (fun a ha => by simpa using hWin1 a ha)
    simp only [canCallEndpoint, hT, Bool.not_true, Bool.false_eq_true, if_false, hcalls,
      hfilter, hlimN, ge_iff_le, le_refl, if_true, List.head?]
    simp
  · have hfilter2 : (t0 :: rest).filter (fun ts => decide (ts > now2 - 60 * 60 * 1000)) =
        rest := by
      rw [List.filter_cons]
      have h0 : (decide (t0 > now2 - 60 * 60 * 1000)) = false := by
        simpa using hOld
      rw [h0]
      simp only [Bool.false_eq_true, if_false]
      exact List.filter_eq_self.mpr (fun a ha => by simpa using hWin2 a ha)
    have hlt : ¬(((rest.length : Int)) ≥ (((t0 :: rest).length : Int))) := by
      simp only [List.length_cons]
      push_cast
      omega
    simp only [canCallEndpoint, hT, Bool.not_true, Bool.false_eq_true, if_false, hcalls,
      hfilter2, hlimN, ge_iff_le]
    rw [if_neg (by exact hlt)]

/-- Witness for C1: gps limit 2, calls recorded at t=10 and t=20 ms;
at t=30 the quota rejects with the computed wait, at t=3600010 (the
oldest call 60 minutes old) it allows again. -/
theorem canCallEndpoint_quota_window_witness :
    ((canCallEndpoint (recordCalls ⟨0, 2, 2, 0, [], []⟩ "gps" [10, 20]) "gps" 30).1.allowed =
        false ∧
     (canCallEndpoint (recordCalls ⟨0, 2, 2, 0, [], []⟩ "gps" [10, 20]) "gps" 30).1.waitMinutes =
        some (mathCeilDiv (10 + 60 * 60 * 1000 - 30) (60 * 1000))) ∧
    (canCallEndpoint (recordCalls ⟨0, 2, 2, 0, [], []⟩ "gps" [10, 20]) "gps" 3600010).1.allowed =
        true :=
  canCallEndpoint_quota_window ⟨0, 2, 2, 0, [], []⟩ "gps" 10 [20] 30 3600010
    (by decide) rfl (by decide) (by decide) (by decide) (by decide)

lemma isLimitedEndpoint_cases (t : String) (hT : isLimitedEndpoint t = true) :
    t = "gps" ∨ t = "details" := by
  simpa [isLimitedEndpoint] using hT

lemma restricted_ne_normal (t : String) (hT : isLimitedEndpoint t = true) :
    t ≠ "normal" := by
  rcases isLimitedEndpoint_cases t hT with h | h <;> subst h <;> decide

lemma getCallList_withLast (rl : RateLimiterState) (x : Int) (t : String) :
    getCallList { rl with lastCallTime := x } t = getCallList rl t := by
  by_cases h : t = "gps" <;> simp [getCallList, h]

lemma canCallEndpoint_state_calls (rl : RateLimiterState) (t : String) (now : Int)
    (hT : isLimitedEndpoint t = true) :
    getCallList (canCallEndpoint rl t now).2 t =
      (getCallList rl t).filter (fun ts => decide (ts > now - 60 * 60 * 1000)) := by
  simp only [canCallEndpoint, hT, Bool.not_true, Bool.false_eq_true, if_false]
  split
  · split <;> simp [getCallList_setCallList]
  · simp [getCallList_setCallList]

/-- **C2.** For a restricted-class request through `makeRequest` (with a
configured API key), the quota timestamp list is appended to only after
the upstream HTTP call succeeds: a quota rejection or a rejected HTTP
promise leaves the (pruned) list without any new timestamp, while an
HTTP resolution appends exactly the record-time timestamp — regardless
of how the response envelope is then validated. -/
theorem makeRequest_records_only_on_success
    (apiKey : String) (rl : RateLimiterState) (t : String) (http : HttpOutcome)
    (nowCheck nowWait nowRecord : Int)
    (hK1 : apiKey ≠ "") (hK2 : apiKey ≠ "your_api_key_here")
    (hT : isLimitedEndpoint t = true) :
    ((canCallEndpoint rl t nowCheck).1.allowed = false →
      (∃ e, (makeRequest apiKey rl t http nowCheck nowWait nowRecord).1 = Except.error e) ∧
      getCallList (makeRequest apiKey rl t http nowCheck nowWait nowRecord).2 t =
        (getCallList rl t).filter (fun ts => decide (ts > nowCheck - 60 * 60 * 1000))) ∧
    ((canCallEndpoint rl t nowCheck).1.allowed = true → http = HttpOutcome.reject →
      (makeRequest apiKey rl t http nowCheck nowWait nowRecord).1 =
        Except.error ReqError.httpFailure ∧
      getCallList (makeRequest apiKey rl t http nowCheck nowWait nowRecord).2 t =
        (getCallList rl t).filter (fun ts => decide (ts > nowCheck - 60 * 60 * 1000))) ∧
    ((canCallEndpoint rl t nowCheck).1.allowed = true →
      ∀ data, http = HttpOutcome.resolve data →
      getCallList (makeRequest apiKey rl t http nowCheck nowWait nowRecord).2 t =
        (getCallList rl t).filter (fun ts => decide (ts > nowCheck - 60 * 60 * 1000)) ++
          [nowRecord]) := by
  have hN : ¬(t = "normal") := restricted_ne_normal t hT
  have hstate := canCallEndpoint_state_calls rl t nowCheck hT
  refine ⟨?_, ?_, ?_⟩
  · intro hAllow
    constructor
    · exact ⟨ReqError.rateLimited (canCallEndpoint rl t nowCheck).1.waitMinutes,
        by simp [makeRequest, hK1, hK2, hN, hAllow]⟩
    · simp [makeRequest, hK1, hK2, hN, hAllow, hstate]
  · intro hAllow hHttp
    subst hHttp
    constructor <;> simp [makeRequest, hK1, hK2, hN, hAllow, hstate, getCallList_withLast]
  · intro hAllow data hHttp
    subst hHttp
    rcases data with _ | env
    · simp [makeRequest, hK1, hK2, hN, hAllow, hstate, getCallList_withLast,
        getCallList_recordCall _ _ _ hT]
    · by_cases hs : env.statusFalse
      · simp only [makeRequest, hK1, hK2, hN, hAllow, hstate, hs]
        simp [makeRequest, hK1, hK2, hN, hAllow, hstate, getCallList_withLast,
          getCallList_recordCall _ _ _ hT, hs]
        split_ifs <;>
          simp [getCallList_withLast, getCallList_recordCall _ _ _ hT, hstate]
      · simp [makeRequest, hK1, hK2, hN, hAllow, hstate, getCallList_withLast,
          getCallList_recordCall _ _ _ hT, hs]

/-- Witness for C2: with quota available, a resolved HTTP call records
exactly the timestamp of the record step. -/
theorem makeRequest_records_only_on_success_witness :
    getCallList (makeRequest "k" ⟨0, 1, 1, 0, [], []⟩ "gps"
        (HttpOutcome.resolve (some ⟨false, none⟩)) 5 6 7).2 "gps" = [7] := by
  have h := (makeRequest_records_only_on_success "k" ⟨0, 1, 1, 0, [], []⟩ "gps"
      (HttpOutcome.resolve (some ⟨false, none⟩)) 5 6 7
      (by decide) (by decide) (by decide)).2.2
      (by decide) (some ⟨false, none⟩) rfl
  simpa using h

lemma find?_filter_of_imp {α : Type} (l : List α) (p q : α → Bool)
    (h : ∀ x, p x = true → q x = true) :
    (l.filter q).find? p = l.find? p := by
  induction l with
  | nil => rfl
  | cons a tl ih =>
    by_cases hq : q a = true
    · rw [List.filter_cons_of_pos hq]
      by_cases hp : p a = true
      · rw [List.find?_cons_of_pos _ hp, List.find?_cons_of_pos _ hp]
      · rw [List.find?_cons_of_neg _ hp, List.find?_cons_of_neg _ hp, ih]
    · have hp : ¬p a = true := fun hpa => hq (h a hpa)
      rw [List.filter_cons_of_neg hq, List.find?_cons_of_neg _ hp, ih]

lemma storeGet_cacheServiceSet_ne (cfg : CacheConfig) (st : CacheStore) (j k : String)
    (v : JsVal) (ttl : Option Int) (now now' : Int) (hjk : j ≠ k) :
    storeGet (cacheServiceSet cfg st j v ttl now) k now' = storeGet st k now' := by
  unfold cacheServiceSet storeSet storeGet
  rw [List.find?_cons_of_neg _ (by simp [hjk]),
    find?_filter_of_imp st (fun p => p.1 == k) (fun p => p.1 != j)
      (fun x hx => by
        have : x.1 = k := by simpa using hx
        simp [this, hjk.symm])]

lemma storeGet_applyCacheSets_ne (cfg : CacheConfig) (st : CacheStore)
    (ops : List (String × JsVal × Option Int × Int)) (k : String) (now' : Int)
    (h : ∀ op ∈ ops, op.1 ≠ k) :
    storeGet (applyCacheSets cfg st ops) k now' = storeGet st k now' := by
  induction ops generalizing st with
  | nil => rfl
  | cons op tl ih =>
    have h1 : applyCacheSets cfg st (op :: tl) =
        applyCacheSets cfg (cacheServiceSet cfg st op.1 op.2.1 op.2.2.1 op.2.2.2) tl := rfl
    rw [h1, ih _ (fun o ho => h o (List.mem_cons_of_mem _ ho)),
      storeGet_cacheServiceSet_ne _ _ _ _ _ _ _ _ (h op (List.mem_cons_self op tl))]

lemma storeGet_cacheServiceSet_same (cfg : CacheConfig) (st : CacheStore) (k : String)
    (v : JsVal) (t now now' : Int) (ht : t ≠ 0) :
    storeGet (cacheServiceSet cfg st k v (some t) now) k now' =
      if now' < now + t then some v else none := by
  have hset : cacheServiceSet cfg st k v (some t) now =
      (k, ⟨v, now + (if t ≠ 0 then t else cfg.ttlOnuStatus)⟩) ::
        st.filter (fun p => p.1 != k) := rfl
  rw [hset, if_pos ht]
  unfold storeGet
  rw [List.find?_cons_of_pos _ (by simp)]

/-- **C5 (corrected).** For a truthy value `v` and `ttl > 0`, a `get(k)`
after `set(k, v, ttl)` returns `v` while the ttl has not elapsed and the
absence signal once it has, independent of any `CacheService.set`
operations on other keys in between.  (The unrestricted claim is false:
see the counterexample — a falsy stored value reads back as the absence
signal.) -/
theorem cache_roundtrip_truthy
    (cfg : CacheConfig) (st : CacheStore) (k : String) (v : JsVal) (ttl now : Int)
    (ops : List (String × JsVal × Option Int × Int)) (now' : Int)
    (hv : v.truthy = true) (ht : 0 < ttl)
    (hops : ∀ op ∈ ops, op.1 ≠ k) :
    (now' < now + ttl →
      cacheServiceGet (applyCacheSets cfg (cacheServiceSet cfg st k v (some ttl) now) ops)
        k now' = v) ∧
    (now + ttl ≤ now' →
      cacheServiceGet (applyCacheSets cfg (cacheServiceSet cfg st k v (some ttl) now) ops)
        k now' = JsVal.null) := by
  have hget : storeGet (applyCacheSets cfg (cacheServiceSet cfg st k v (some ttl) now) ops)
      k now' = if now' < now + ttl then some v else none := by
    rw [storeGet_applyCacheSets_ne cfg _ ops k now' hops,
      storeGet_cacheServiceSet_same cfg st k v ttl now now' (by omega)]
  constructor
  · intro hlt
    unfold cacheServiceGet
    rw [hget, if_pos hlt]
    simp [hv]
  · intro hge
    unfold cacheServiceGet
    rw [hget, if_neg (by omega)]

/-- Counterexample for C5 as stated: the stored value `0` is falsy, so
an immediate `get` after `set(k, 0, 10)` returns the absence signal
`null`, not the stored value. -/
theorem cache_roundtrip_counterexample :
    cacheServiceGet (cacheServiceSet ⟨60, 300, 600⟩ [] "k" (JsVal.num 0) (some 10) 0) "k" 0 =
      JsVal.null ∧ JsVal.null ≠ JsVal.num 0 := by
  constructor
  · decide
  · decide

/-- Witness for the corrected C5: a truthy payload set at t=0 with
ttl 5, with an unrelated key set in between, reads back at t=3 and is
absent at t=7. -/
theorem cache_roundtrip_truthy_witness :
    cacheServiceGet (applyCacheSets ⟨60, 300, 600⟩
        (cacheServiceSet ⟨60, 300, 600⟩ [] "a" (JsVal.obj 1) (some 5) 0)
        [("b", JsVal.num 3, none, 1)]) "a" 3 = JsVal.obj 1 ∧
    cacheServiceGet (applyCacheSets ⟨60, 300, 600⟩
        (cacheServiceSet ⟨60, 300, 600⟩ [] "a" (JsVal.obj 1) (some 5) 0)
        [("b", JsVal.num 3, none, 1)]) "a" 7 = JsVal.null :=
  ⟨(cache_roundtrip_truthy ⟨60, 300, 600⟩ [] "a" (JsVal.obj 1) 5 0
      [("b", JsVal.num 3, none, 1)] 3 (by decide) (by decide) (by decide)).1 (by decide),
   (cache_roundtrip_truthy ⟨60, 300, 600⟩ [] "a" (JsVal.obj 1) 5 0
      [("b", JsVal.num 3, none, 1)] 7 (by decide) (by decide) (by decide)).2 (by decide)⟩

/-- **C10.** A stored falsy value (`false`, `0`, `""`, `null`) is
present and unexpired in the underlying store, yet `CacheService.get`
returns `null` — indistinguishable from a miss. -/
theorem cacheServiceGet_falsy_indistinguishable
    (cfg : CacheConfig) (st : CacheStore) (k : String) (v : JsVal) (t now now' : Int)
    (hv : v.truthy = false) (ht : t ≠ 0) (hexp : now' < now + t) :
    storeGet (cacheServiceSet cfg st k v (some t) now) k now' = some v ∧
    cacheServiceGet (cacheServiceSet cfg st k v (some t) now) k now' = JsVal.null := by
  have hget := storeGet_cacheServiceSet_same cfg st k v t now now' ht
  constructor
  · rw [hget, if_pos hexp]
  · unfold cacheServiceGet
    rw [hget, if_pos hexp]
    simp [hv]

/-- Witness for C10: the cached value `0` is present and unexpired, yet
`get` returns `null`. -/
theorem cacheServiceGet_falsy_indistinguishable_witness :
    storeGet (cacheServiceSet ⟨60, 300, 600⟩ [] "k" (JsVal.num 0) (some 10) 0) "k" 1 =
      some (JsVal.num 0) ∧
    cacheServiceGet (cacheServiceSet ⟨60, 300, 600⟩ [] "k" (JsVal.num 0) (some 10) 0) "k" 1 =
      JsVal.null :=
  cacheServiceGet_falsy_indistinguishable ⟨60, 300, 600⟩ [] "k" (JsVal.num 0) 10 0 1
    (by decide) (by decide) (by decide)

lemma boundedUnshift_eq (e : StatusEvent) (l : List StatusEvent) (h : l.length ≤ 50) :
    (if (e :: l).length > 50 then (e :: l).dropLast else e :: l) = e :: l.take 49 := by
  by_cases h50 : l.length = 50
  · rw [if_pos (by simp [h50])]
    have hne : l ≠ [] := by
      intro h0
      rw [h0] at h50
      simp at h50
    rw [List.dropLast_cons_of_ne_nil hne, List.dropLast_eq_take, h50]
  · rw [if_neg (by simp only [List.length_cons]; omega),
      List.take_of_length_le (by omega)]

/-- **C6.** When a device's newly computed status `B` differs from its
cached prior status `A`, exactly one transition event is prepended to
the log selected by `B` (the LOS log when `B = LOS`, the Power Fail log
when `B = "Power Fail"`, no log for any other `B`); `B = A` appends
nothing; and each log stays within 50 entries, the oldest entry being
evicted on overflow. -/
theorem trackStatusChange_transitions
    (hist : StatusHistory) (o : OnuRec) (newS oldS : String) (ts : String)
    (hL : hist.recentLos.length ≤ 50) (hP : hist.recentPowerFail.length ≤ 50) :
    (newS = oldS → trackStatusChange hist o newS oldS ts = hist) ∧
    (newS ≠ oldS → newS = "LOS" →
      trackStatusChange hist o newS oldS ts =
        { hist with recentLos := mkStatusEvent o newS oldS ts :: hist.recentLos.take 49 }) ∧
    (newS ≠ oldS → newS = "Power Fail" →
      trackStatusChange hist o newS oldS ts =
        { hist with
            recentPowerFail := mkStatusEvent o newS oldS ts :: hist.recentPowerFail.take 49 }) ∧
    (newS ≠ oldS → newS ≠ "LOS" → newS ≠ "Power Fail" →
      trackStatusChange hist o newS oldS ts = hist) ∧
    (trackStatusChange hist o newS oldS ts).recentLos.length ≤ 50 ∧
    (trackStatusChange hist o newS oldS ts).recentPowerFail.length ≤ 50 := by
  have h1 : newS = oldS → trackStatusChange hist o newS oldS ts = hist := fun h => by
    simp [trackStatusChange, h]
  have h2 : newS ≠ oldS → newS = "LOS" →
      trackStatusChange hist o newS oldS ts =
        { hist with recentLos := mkStatusEvent o newS oldS ts :: hist.recentLos.take 49 } := by
    intro hne hlos
    subst hlos
    have hb := boundedUnshift_eq (mkStatusEvent o "LOS" oldS ts) hist.recentLos hL
    simp only [List.length_cons, gt_iff_lt] at hb
    simp [trackStatusChange, hne, hb]
  have h3 : newS ≠ oldS → newS = "Power Fail" →
      trackStatusChange hist o newS oldS ts =
        { hist with
            recentPowerFail := mkStatusEvent o newS oldS ts :: hist.recentPowerFail.take 49 } := by
    intro hne hpf
    subst hpf
    have hb := boundedUnshift_eq (mkStatusEvent o "Power Fail" oldS ts)
      hist.recentPowerFail hP
    simp only [List.length_cons, gt_iff_lt] at hb
    simp [trackStatusChange, hne, hb]
  have h4 : newS ≠ oldS → newS ≠ "LOS" → newS ≠ "Power Fail" →
      trackStatusChange hist o newS oldS ts = hist := fun hne ha hb => by
    simp [trackStatusChange, hne, ha, hb]
  have hbound : (trackStatusChange hist o newS oldS ts).recentLos.length ≤ 50 ∧
      (trackStatusChange hist o newS oldS ts).recentPowerFail.length ≤ 50 := by
    by_cases he : newS = oldS
    · rw [h1 he]
      exact ⟨hL, hP⟩
    · by_cases hlos : newS = "LOS"
      · rw [h2 he hlos]
        refine ⟨?_, hP⟩
        have := List.length_take 49 hist.recentLos
        simp only [List.length_cons]
        omega
      · by_cases hpf : newS = "Power Fail"
        · rw [h3 he hpf]
          refine ⟨hL, ?_⟩
          have := List.length_take 49 hist.recentPowerFail
          simp only [List.length_cons]
          omega
        · rw [h4 he hlos hpf]
          exact ⟨hL, hP⟩
  exact ⟨h1, h2, h3, h4, hbound.1, hbound.2⟩

/-- Witness for C6: an Online→LOS transition on empty logs produces
exactly one event at the head of the LOS log and nothing in the Power
Fail log. -/
theorem trackStatusChange_transitions_witness :
    trackStatusChange ⟨[], []⟩
        ⟨"id1", some "n", some "odb", 1, 2, 3, none, none, some "Online", none, none⟩
        "LOS" "Online" "t" =
      ⟨[mkStatusEvent ⟨"id1", some "n", some "odb", 1, 2, 3, none, none, some "Online",
          none, none⟩ "LOS" "Online" "t"], []⟩ := by
  have h := (trackStatusChange_transitions ⟨[], []⟩
      ⟨"id1", some "n", some "odb", 1, 2, 3, none, none, some "Online", none, none⟩
      "LOS" "Online" "t" (by decide) (by decide)).2.1 (by decide) rfl
  simpa using h

/-- **C7.** A device with coordinates `(0,0)`, a NaN coordinate, or a
missing coordinate is excluded from the location-aware listing
(`getOnusWithGps`); a device with a valid pair such as `(-7.1, 110.8)`
is included.  Every output record arises from exactly the devices that
pass the coordinate-validity filter. -/
lemma validCoordPair_nonzero (a b : ℚ) (ha : a ≠ 0) (hb : b ≠ 0) :
    validCoordPair (some (JsNum.num a)) (some (JsNum.num b)) = true := by
  simp [validCoordPair, coordTruthy, JsNum.truthy, JsNum.isNaNum, jsParseFloat, ha, hb]

theorem getOnusWithGps_location_filter :
    (∀ (onus : List OnuRec) (o : OnuRec), o ∈ onus →
        validCoordPair o.latitude o.longitude = true →
        gpsProcessOne o ∈ getOnusWithGpsList onus) ∧
    (∀ (onus : List OnuRec) (r : GpsOnuOut), r ∈ getOnusWithGpsList onus →
        ∃ o, o ∈ onus ∧ validCoordPair o.latitude o.longitude = true ∧
          r = gpsProcessOne o) ∧
    validCoordPair (some (JsNum.num 0)) (some (JsNum.num 0)) = false ∧
    (∀ g, validCoordPair (some JsNum.nan) g = false) ∧
    (∀ l, validCoordPair l none = false) ∧
    validCoordPair (some (JsNum.num (-71/10))) (some (JsNum.num (1108/10))) = true := by
  refine ⟨?_, ?_, by decide, ?_, ?_,
    validCoordPair_nonzero _ _ (by norm_num) (by norm_num)⟩
  · intro onus o ho hv
    exact List.mem_map_of_mem _ (List.mem_filter.mpr ⟨ho, hv⟩)
  · intro onus r hr
    obtain ⟨o, ho, rfl⟩ := List.mem_map.mp hr
    exact ⟨o, (List.mem_filter.mp ho).1, (List.mem_filter.mp ho).2, rfl⟩
  · intro g
    rfl
  · intro l
    rcases l with _ | n
    · rfl
    · rcases n with q | _
      · by_cases hq : q = 0 <;> simp [validCoordPair, coordTruthy, JsNum.truthy, hq]
      · rfl

/-- Witness for C7: a valid-coordinate device appears in the listing
built from a list also containing an origin-coordinate device. -/
theorem getOnusWithGps_location_filter_witness :
    gpsProcessOne ⟨"g", none, none, 0, 0, 0, none, none, some "Online",
        some (JsNum.num (-71/10)), some (JsNum.num (1108/10))⟩ ∈
      getOnusWithGpsList
        [⟨"b", none, none, 0, 0, 0, none, none, some "Online",
            some (JsNum.num 0), some (JsNum.num 0)⟩,
         ⟨"g", none, none, 0, 0, 0, none, none, some "Online",
            some (JsNum.num (-71/10)), some (JsNum.num (1108/10))⟩] :=
  getOnusWithGps_location_filter.1 _ _ (by simp)
    (validCoordPair_nonzero _ _ (by norm_num) (by norm_num))

/-- **C8.** `getOnuById` succeeds whenever the detail fetch succeeds,
even if the signal sub-fetch fails; a failed signal fetch is
represented as an absent (`null`) signal field of the returned record,
never as failure of the whole lookup. -/
theorem getOnuById_signal_tolerant
    (cached : Option OnuByIdResult) (details : DetailsResponse)
    (signalOutcome : Option SignalResponse)
    (hD : details.status = true) :
    (∃ r, getOnuById cached details signalOutcome = Except.ok r) ∧
    (cached = none → signalOutcome = none →
      getOnuById cached details signalOutcome =
        Except.ok
          { base := details.onu_details
            status := determineOnuStatusV2 details.onu_details.status
            status_color := getStatusColor (determineOnuStatusV2 details.onu_details.status)
            raw_status := details.onu_details.status
            signal := none }) := by
  constructor
  · rcases cached with _ | r
    · simp only [getOnuById, hD, Bool.not_true, Bool.false_eq_true, if_false]
      exact ⟨_, rfl⟩
    · exact ⟨r, rfl⟩
  · intro hc hs
    subst hc
    subst hs
    simp [getOnuById, hD, Option.getD]

/-- Witness for C8: detail fetch succeeds, signal fetch rejects; the
lookup returns a record with `signal = null`. -/
theorem getOnuById_signal_tolerant_witness :
    getOnuById none
        ⟨true, ⟨"id", none, none, 0, 0, 0, none, none, some "Online", none, none⟩⟩ none =
      Except.ok
        { base := ⟨"id", none, none, 0, 0, 0, none, none, some "Online", none, none⟩
          status := determineOnuStatusV2 (some "Online")
          status_color := getStatusColor (determineOnuStatusV2 (some "Online"))
          raw_status := some "Online"
          signal := none } :=
  (getOnuById_signal_tolerant none
      ⟨true, ⟨"id", none, none, 0, 0, 0, none, none, some "Online", none, none⟩⟩ none
      rfl).2 rfl rfl

/-- Counterexample for C9 as stated: the same option/value pairs in a
different key order produce different fingerprints (and therefore
different cache keys). -/
theorem allOnusCacheKey_order_dependent :
    [("olt_id", "1"), ("zone_name", "7")].Perm [("zone_name", "7"), ("olt_id", "1")] ∧
    allOnusCacheKey [("olt_id", "1"), ("zone_name", "7")] ≠
      allOnusCacheKey [("zone_name", "7"), ("olt_id", "1")] := by
  constructor
  · decide
  · decide

lemma escape_plain_list (l : List Char)
    (h : l.all (fun c => c ≠ '"' && c ≠ '\\') = true) :
    (l.map jsonEscapeChar).flatten = l := by
  induction l with
  | nil => rfl
  | cons c tl ih =>
    simp only [List.all_cons, Bool.and_eq_true, decide_eq_true_eq] at h
    obtain ⟨⟨h1, h2⟩, h3⟩ := h
    simp only [List.map_cons, List.flatten_cons, jsonEscapeChar, if_neg h2, if_neg h1,
      List.singleton_append]
    rw [ih (by simpa [List.all_eq_true] using h3)]

lemma string_mk_data (s : String) : String.mk s.data = s := by
  cases s
  rfl

lemma jsonQuote_plain (s : String) (h : plainStr s = true) :
    jsonQuote s = "\"" ++ s ++ "\"" := by
  unfold jsonQuote
  rw [escape_plain_list s.data (by simpa [plainStr] using h), string_mk_data]

lemma plainStr_no_quote (s : String) (h : plainStr s = true) :
    ∀ c ∈ s.data, c ≠ '"' := by
  intro c hc
  have h2 : ∀ x ∈ s.data, x ≠ '"' ∧ x ≠ '\\' := by
    simpa [plainStr, List.all_eq_true] using h
  exact (h2 c hc).1

lemma joinComma_pair (x y : String) : joinComma [x, y] = x ++ "," ++ y := rfl

lemma quotefree_segment : ∀ (x y r s : List Char),
    (∀ c ∈ x, c ≠ '"') → (∀ c ∈ y, c ≠ '"') →
    x ++ '"' :: r = y ++ '"' :: s → x = y ∧ r = s
  | [], [], _, _, _, _, h => by simpa using h
  | [], d :: ys, _, _, _, hy, h => by
      exfalso
      simp only [List.nil_append, List.cons_append] at h
      injection h with hd _
      exact hy d (List.mem_cons_self d ys) hd.symm
  | c :: xs, [], _, _, hx, _, h => by
      exfalso
      simp only [List.nil_append, List.cons_append] at h
      injection h with hd _
      exact hx c (List.mem_cons_self c xs) hd
  | c :: xs, d :: ys, r, s, hx, hy, h => by
      simp only [List.cons_append] at h
      injection h with hcd htl
      obtain ⟨hxy, hrs⟩ := quotefree_segment xs ys r s
        (fun e he => hx e (List.mem_cons_of_mem _ he))
        (fun e he => hy e (List.mem_cons_of_mem _ he)) htl
      exact ⟨by rw [hcd, hxy], hrs⟩

/-- **C9 (amended).** The fingerprint is the literal JSON serialization
of the filter object in key insertion order: filter objects with
identical pair sequences share a fingerprint (trivially, by
determinism), but permuting two distinct keys changes the fingerprint
(for quote- and backslash-free keys and values), so a reordered filter
set misses the cache. -/
theorem allOnusCacheKey_insertion_order
    (a b v w : String)
    (ha : plainStr a = true) (hb : plainStr b = true)
    (hv : plainStr v = true) (hw : plainStr w = true)
    (hab : a ≠ b) :
    allOnusCacheKey [(a, v), (b, w)] ≠ allOnusCacheKey [(b, w), (a, v)] := by
  intro h
  apply hab
  have hd := congrArg String.data h
  have dq : ("\"" : String).data = ['"'] := rfl
  have dc : (":" : String).data = [':'] := rfl
  have dcm : ("," : String).data = [','] := rfl
  have dob : ("\x7b" : String).data = ['{'] := rfl
  have dcb : ("\x7d" : String).data = ['}'] := rfl
  simp only [allOnusCacheKey, jsonStringifyPairs, List.map_cons, List.map_nil,
    joinComma_pair, jsonQuote_plain _ ha, jsonQuote_plain _ hb, jsonQuote_plain _ hv,
    jsonQuote_plain _ hw, String.data_append, List.append_assoc, dq, dc, dcm, dob, dcb,
    List.singleton_append, List.cons_append, List.nil_append] at hd
  simp only [List.cons.injEq, eq_self_iff_true, true_and] at hd
  obtain ⟨hxy, _⟩ := quotefree_segment a.data b.data _ _
    (plainStr_no_quote a ha) (plainStr_no_quote b hb) hd
  exact String.ext hxy

/-- Witness for the amended C9: two concrete two-key filter objects in
opposite insertion orders do not share a cache key. -/
theorem allOnusCacheKey_insertion_order_witness :
    allOnusCacheKey [("olt_id", "1"), ("zone", "2")] ≠
      allOnusCacheKey [("zone", "2"), ("olt_id", "1")] :=
  allOnusCacheKey_insertion_order "olt_id" "zone" "1" "2"
    (by decide) (by decide) (by decide) (by decide) (by decide)
